import Mathlib

/-!
Verification of the BLE device manager component (src/unnamed/part_000, a
React Native component built on react-native-ble-plx).

The component's React state hooks and refs are modelled as fields of an
explicit record `AppState`; each event handler of the source becomes a state
transformer on `AppState`.  Results of asynchronous adapter calls (connect
outcome, service/characteristic enumeration, monitored characteristic
values) are passed in as explicit environment arguments, so every definition
is executable.  Armed `setTimeout` timers are modelled as option-valued
fields (the ref holds at most one live handle in the source); a timer firing
is a separate transformer that is a no-op when the field is empty.
-/

namespace BLEDeviceManager

/-- RadioState mirrors the `State` type of react-native-ble-plx used by the
component (field `bluetoothState`, part_000 line 55). -/
inductive RadioState where
  | unknown
  | resetting
  | unsupported
  | unauthorized
  | poweredOff
  | poweredOn
deriving DecidableEq, Repr

/-- ConnectionStatus mirrors the string union type of part_000 lines 36-43:
Disconnected, Connecting..., Connected, Connection Failed, Reconnecting...,
Bluetooth Off, Checking Bluetooth... . -/
inductive ConnectionStatus where
  | disconnected
  | connecting
  | connected
  | connectionFailed
  | reconnecting
  | bluetoothOff
  | checkingBluetooth
deriving DecidableEq, Repr

/-- Device mirrors the fields of a ble-plx `Device` that the component
reads: id (the deduplication key), name, rssi (part_000 lines 263-269). -/
structure Device where
  id : String
  name : Option String
  rssi : Int
deriving DecidableEq, Repr

/-- NotificationData mirrors part_000 lines 28-34.  The source computes
`id: Date.now() + Math.random()`, a real number; it is embedded here at a
resolution of 1/1000: `id = 1000 * nowMs + frac` with `frac < 1000` standing
for the fractional part contributed by `Math.random()`.  Ordering of the
scaled ids agrees with ordering of the source's real-valued ids. -/
structure NotificationData where
  id : Nat
  serviceUUID : String
  characteristicUUID : String
  value : String
  timestamp : String
deriving DecidableEq, Repr

/-- AppState gathers the component's useState hooks (part_000 lines 46-56)
and mutable refs (lines 58-62).  `reconnectTimer`/`scanTimerArmed` model the
timeout refs (the target device of an armed reconnect timer is recorded);
`subscriptions` models `subscriptionsRef` as a list of handle names;
`disconnectMonitor` records whether an `onDisconnected` listener is armed,
and for which device. -/
structure AppState where
  isScanning : Bool
  devices : List Device
  connectedDevice : Option Device
  isConnected : Bool
  notifications : List NotificationData
  autoReconnect : Bool
  connectionStatus : ConnectionStatus
  bluetoothState : RadioState
  reconnectTimer : Option Device
  scanTimerArmed : Bool
  subscriptions : List String
  disconnectMonitor : Option Device
deriving DecidableEq, Repr

/-- Initial hook values, part_000 lines 46-56: not scanning, no devices, no
connected device, empty log, auto-reconnect defaults to true, status
Checking Bluetooth..., bluetooth state Unknown, nothing armed. -/
def initialState : AppState where
  isScanning := false
  devices := []
  connectedDevice := none
  isConnected := false
  notifications := []
  autoReconnect := true
  connectionStatus := ConnectionStatus.checkingBluetooth
  bluetoothState := RadioState.unknown
  reconnectTimer := none
  scanTimerArmed := false
  subscriptions := []
  disconnectMonitor := none

/-- Character-list prefix test used to express substring containment. -/
def listStartsWith : List Char → List Char → Bool
  | [], _ => true
  | _ :: _, [] => false
  | a :: as, b :: bs => (a == b) && listStartsWith as bs

/-- Substring containment on char lists, the semantics of JavaScript
`String.prototype.includes` used throughout the source for error-message
classification. -/
def listContains (pat : List Char) : List Char → Bool
  | [] => listStartsWith pat []
  | c :: rest => listStartsWith pat (c :: rest) || listContains pat rest

/-- JavaScript `s.includes(pat)`. -/
def strContains (s pat : String) : Bool :=
  listContains pat.toList s.toList

/-- stopScan, part_000 lines 300-310: stops the adapter scan, sets
`isScanning` to false and clears the scan auto-stop timer. -/
def stopScan (s : AppState) : AppState :=
  { s with isScanning := false, scanTimerArmed := false }

/-- startScan, part_000 lines 233-298, successful-start path.  The
`canProceed` flag stands for the awaited result of `checkPrerequisites`
(lines 208-231); when it is false the function returns without touching
state (line 237).  On success the scan starts with a cleared device list and
a 20-second auto-stop timer armed (lines 239-240, 289-292). -/
def startScan (canProceed : Bool) (s : AppState) : AppState :=
  if canProceed then
    { s with isScanning := true, devices := [], scanTimerArmed := true }
  else s

/-- Firing of the scan auto-stop timer (part_000 lines 289-292): a no-op
when the timer is not armed, otherwise runs `stopScan`. -/
def scanTimerFire (s : AppState) : AppState :=
  if s.scanTimerArmed then stopScan s else s

/-- Device-list update of the scan callback, part_000 lines 271-283: the
first entry whose id matches is replaced in place; otherwise the device is
appended at the end. -/
def upsertDevice (d : Device) : List Device → List Device
  | [] => [d]
  | e :: rest => if e.id = d.id then d :: rest else e :: upsertDevice d rest

/-- Scan callback, device branch (part_000 lines 262-284). -/
def onDeviceFound (d : Device) (s : AppState) : AppState :=
  { s with devices := upsertDevice d s.devices }

/-- updateConnectionStatusFromBluetoothState, part_000 lines 106-120.  The
function body reads the `isConnected` and `isScanning` state variables from
the render closure it was created in, not from live state, so those two
reads are explicit parameters here (`isConnectedC`, `isScanningC`): the
values captured by the closure being invoked.  The state setters and the
refs used by `stopScan` are stable across renders and act on live state,
so the effects apply to the current state `s`. -/
def updateConnectionStatusFromBluetoothState (isConnectedC isScanningC : Bool)
    (st : RadioState) (s : AppState) : AppState :=
  if st = RadioState.poweredOn then
    if isConnectedC then s
    else { s with connectionStatus := ConnectionStatus.disconnected }
  else if st = RadioState.poweredOff then
    let s1 := { s with connectionStatus := ConnectionStatus.bluetoothOff }
    if isScanningC then stopScan s1 else s1
  else
    { s with connectionStatus := ConnectionStatus.checkingBluetooth }

/-- onStateChange listener, part_000 lines 84-91: records the new radio
state, then updates the connection status.  The listener is registered
exactly once, by initializeBLE from the mount-time useEffect with empty
deps (lines 64-69, 84-91), so the closure it holds is the first render's:
its `isConnected` and `isScanning` bindings are permanently frozen at
`false`, their initial values.  In consequence the stopScan branch of
line 114 can never run from a radio transition. -/
def onStateChange (st : RadioState) (s : AppState) : AppState :=
  updateConnectionStatusFromBluetoothState false false st { s with bluetoothState := st }

/-- Notification Log push, part_000 lines 484-487:
`[notification, ...prev.slice(0, 99)]` prepends and keeps at most 100. -/
def pushNotification (n : NotificationData) (log : List NotificationData) :
    List NotificationData :=
  n :: log.take 99

/-- Sequence id generation, part_000 line 477: `Date.now() + Math.random()`
scaled by 1000 (see `NotificationData`). -/
def mkNotificationId (nowMs frac : Nat) : Nat :=
  1000 * nowMs + frac % 1000

/-- One callback invocation of `characteristic.monitor` (part_000 lines
467-489).  `value = none` covers both the error branch (line 468) and a
missing `char.value` (line 473), in which cases nothing is pushed. -/
structure MonitorEvent where
  serviceUUID : String
  charUUID : String
  value : Option String
  nowMs : Nat
  frac : Nat
  timestamp : String
deriving DecidableEq, Repr

/-- Monitor callback body, part_000 lines 467-489: on a value update it
builds a NotificationData and pushes it onto the log. -/
def onMonitorValue (e : MonitorEvent) (s : AppState) : AppState :=
  match e.value with
  | none => s
  | some v =>
      let n : NotificationData :=
        { id := mkNotificationId e.nowMs e.frac
          serviceUUID := e.serviceUUID
          characteristicUUID := e.charUUID
          value := v
          timestamp := e.timestamp }
      { s with notifications := pushNotification n s.notifications }

/-- One characteristic as seen by subscribeToCharacteristics:
its uuid, whether it advertises notifications (`isNotifiable`, line 461),
and whether the `characteristic.monitor` call succeeds (`monitorOk` false
models the per-characteristic catch of lines 493-498). -/
structure CharEnv where
  uuid : String
  isNotifiable : Bool
  monitorOk : Bool
deriving DecidableEq, Repr

/-- One service as seen by subscribeToCharacteristics: `chars = none`
models `service.characteristics()` throwing (per-service catch, part_000
lines 501-506). -/
structure ServiceEnv where
  uuid : String
  chars : Option (List CharEnv)
deriving DecidableEq, Repr

/-- Accumulator of the nested loops of subscribeToCharacteristics:
characteristics for which a subscription was attempted (the body of the
`if (characteristic.isNotifiable)` branch is entered, line 461),
handles actually pushed to `subscriptionsRef` (line 491), and
`notificationCount` (line 492). -/
structure AttachAcc where
  attempted : List String
  handles : List String
  count : Nat
deriving DecidableEq, Repr

/-- Key identifying a characteristic within a service. -/
def charKey (svUuid : String) (c : CharEnv) : String :=
  svUuid ++ "/" ++ c.uuid

/-- Inner loop body of subscribeToCharacteristics (part_000 lines 451-500):
non-notifiable characteristics are skipped; a failing subscription is
logged and skipped (attempted but no handle, no count). -/
def attachChar (svUuid : String) (acc : AttachAcc) (c : CharEnv) : AttachAcc :=
  if c.isNotifiable then
    if c.monitorOk then
      { attempted := acc.attempted ++ [charKey svUuid c]
        handles := acc.handles ++ [charKey svUuid c]
        count := acc.count + 1 }
    else
      { acc with attempted := acc.attempted ++ [charKey svUuid c] }
  else acc

/-- Outer loop body of subscribeToCharacteristics (part_000 lines 442-507):
a service whose characteristic enumeration throws is skipped whole. -/
def attachService (acc : AttachAcc) (sv : ServiceEnv) : AttachAcc :=
  match sv.chars with
  | none => acc
  | some cs => cs.foldl (attachChar sv.uuid) acc

/-- Both loops of subscribeToCharacteristics, part_000 lines 434-515. -/
def attachAll (svcs : List ServiceEnv) : AttachAcc :=
  svcs.foldl attachService { attempted := [], handles := [], count := 0 }

/-- Declarative description: the notifiable characteristics of one service
(those the loop attempts). -/
def svcNotifiable (sv : ServiceEnv) : List String :=
  match sv.chars with
  | none => []
  | some cs => (cs.filter (fun c => c.isNotifiable)).map (charKey sv.uuid)

/-- Declarative description: the notifiable characteristics of one service
whose monitor call succeeds. -/
def svcSuccessful (sv : ServiceEnv) : List String :=
  match sv.chars with
  | none => []
  | some cs =>
      (cs.filter (fun c => c.isNotifiable && c.monitorOk)).map (charKey sv.uuid)

/-- Effect of subscribeToCharacteristics on the component state: the
successful handles are appended to `subscriptionsRef` (part_000 line 491). -/
def subscribeToCharacteristics (svcs : List ServiceEnv) (s : AppState) : AppState :=
  { s with subscriptions := s.subscriptions ++ (attachAll svcs).handles }

/-- Error-message rewriting of the connect catch block, part_000 lines
370-381. -/
def classifyMessage (msg : String) : String :=
  if strContains msg "timeout" then
    "Connection timeout. Make sure the device is nearby and in pairing mode."
  else if strContains msg "Device not found" then
    "Device not found. It may have moved out of range."
  else if strContains msg "Device disconnected" then
    "Device disconnected during connection attempt."
  else if strContains msg "Operation was cancelled" then
    "Connection was cancelled."
  else msg

/-- Error taxonomy of the specification mapped onto the same
message-pattern chain that part_000 lines 372-381 classifies by. -/
inductive BleError where
  | connectTimeout
  | deviceNotFound
  | deviceDisconnectedDuringSetup
  | operationCancelled
  | unknownAdapterError
deriving DecidableEq, Repr

/-- Classification of a raw adapter error message into the taxonomy,
following the pattern chain of part_000 lines 372-381. -/
def classifyError (msg : String) : BleError :=
  if strContains msg "timeout" then BleError.connectTimeout
  else if strContains msg "Device not found" then BleError.deviceNotFound
  else if strContains msg "Device disconnected" then BleError.deviceDisconnectedDuringSetup
  else if strContains msg "Operation was cancelled" then BleError.operationCancelled
  else BleError.unknownAdapterError

/-- scheduleReconnect, part_000 lines 422-430: sets status Reconnecting...
and arms the reconnect timer for the given device.  The previous content of
`reconnectTimeoutRef` is overwritten without being cleared. -/
def scheduleReconnect (d : Device) (s : AppState) : AppState :=
  { s with connectionStatus := ConnectionStatus.reconnecting
           reconnectTimer := some d }

/-- setupConnectionMonitoring, part_000 lines 396-420: registers an
onDisconnected listener for the device and pushes its subscription handle
onto `subscriptionsRef` (line 419). -/
def setupConnectionMonitoring (d : Device) (s : AppState) : AppState :=
  { s with disconnectMonitor := some d
           subscriptions := s.subscriptions ++ ["monitor:" ++ d.id] }

/-- Result of the awaited adapter calls inside connectToDevice: the
peripheral reports already connected (line 329), the connect plus service
discovery succeed (lines 340-352), or some awaited step throws with the
given message (catch block, line 366). -/
inductive ConnectOutcome where
  | alreadyConnected
  | success
  | failure (msg : String)
deriving DecidableEq, Repr

/-- connectToDevice, part_000 lines 312-394.  Returns the new state and the
sequence of connection statuses set during the call, in order.  Order of
effects follows the source: status Connecting... (line 316); stop an active
scan (lines 324-326); then either the already-connected short circuit
(lines 329-337, no disconnect monitoring), the success path (lines 340-363,
arms monitoring then subscribes), or the catch block (lines 366-393, status
Connection Failed, classify the message, drop the device handle, and
schedule a reconnect when auto-reconnect is on and the classified message
does not contain the substring cancelled).  Note the catch block never
clears an armed reconnect timer. -/
def connectToDevice (d : Device) (o : ConnectOutcome) (svcs : List ServiceEnv)
    (s : AppState) : AppState × List ConnectionStatus :=
  let s1 := { s with connectionStatus := ConnectionStatus.connecting }
  let s2 := if s1.isScanning then stopScan s1 else s1
  match o with
  | ConnectOutcome.alreadyConnected =>
      let s3 := { s2 with connectedDevice := some d
                          isConnected := true
                          connectionStatus := ConnectionStatus.connected }
      (subscribeToCharacteristics svcs s3,
       [ConnectionStatus.connecting, ConnectionStatus.connected])
  | ConnectOutcome.success =>
      let s3 := { s2 with connectedDevice := some d
                          isConnected := true
                          connectionStatus := ConnectionStatus.connected }
      let s4 := setupConnectionMonitoring d s3
      (subscribeToCharacteristics svcs s4,
       [ConnectionStatus.connecting, ConnectionStatus.connected])
  | ConnectOutcome.failure msg =>
      let s3 := { s2 with connectionStatus := ConnectionStatus.connectionFailed }
      let errorMessage := classifyMessage msg
      let s4 := { s3 with connectedDevice := none, isConnected := false }
      if s4.autoReconnect && !(strContains errorMessage "cancelled") then
        (scheduleReconnect d s4,
         [ConnectionStatus.connecting, ConnectionStatus.connectionFailed,
          ConnectionStatus.reconnecting])
      else
        (s4, [ConnectionStatus.connecting, ConnectionStatus.connectionFailed])

/-- Firing of the reconnect timer (part_000 lines 426-429): a no-op when no
timer is armed; otherwise the armed handle is consumed and
`connectToDevice` runs again for the remembered device. -/
def reconnectTimerFire (o : ConnectOutcome) (svcs : List ServiceEnv)
    (s : AppState) : AppState × List ConnectionStatus :=
  match s.reconnectTimer with
  | none => (s, [])
  | some d => connectToDevice d o svcs { s with reconnectTimer := none }

/-- onDisconnected listener body, part_000 lines 401-417: fires only when a
listener was registered; clears the connection flags and every subscription
handle, and schedules a reconnect when auto-reconnect is on and the error
message does not contain the substring cancelled (a missing error counts as
not cancelled, line 414).  The notification log is left untouched. -/
def onPeripheralDisconnect (errMsg : Option String) (s : AppState) : AppState :=
  match s.disconnectMonitor with
  | none => s
  | some d =>
      let s1 := { s with isConnected := false
                         connectedDevice := none
                         connectionStatus := ConnectionStatus.disconnected
                         subscriptions := []
                         disconnectMonitor := none }
      let cancelledFlag :=
        match errMsg with
        | some m => strContains m "cancelled"
        | none => false
      if s1.autoReconnect && !cancelledFlag then scheduleReconnect d s1 else s1

/-- disconnect, part_000 lines 521-549.  Guard of line 522: returns
immediately when there is no current device handle.  Otherwise the reconnect
timer is cleared and all subscription handles removed (lines 528-536); then
`cancelDeviceConnection` is awaited — when it succeeds (`cancelOk`) the
connection flags, status and notification log are reset (lines 540-543),
and when it throws the catch block (line 546) skips those resets. -/
def disconnect (cancelOk : Bool) (s : AppState) : AppState :=
  match s.connectedDevice with
  | none => s
  | some _ =>
      let s1 := { s with reconnectTimer := none
                         subscriptions := []
                         disconnectMonitor := none }
      if cancelOk then
        { s1 with connectedDevice := none
                  isConnected := false
                  connectionStatus := ConnectionStatus.disconnected
                  notifications := [] }
      else s1

/-! ### Derived definitions used by the verification -/

/-- Repeated pushes onto the Notification Log. -/
def pushAll (es : List NotificationData) (log : List NotificationData) :
    List NotificationData :=
  es.foldl (fun l e => pushNotification e l) log

/-- A run of n notification events whose sequence ids are issued in
increasing order 1..n (the scenario of the 105-push testable property). -/
def seqEvents (n : Nat) : List NotificationData :=
  (List.range n).map fun i =>
    { id := i + 1, serviceUUID := "svc", characteristicUUID := "chr",
      value := "00", timestamp := "t" }

/-- Identity column of a device list. -/
def deviceIds (l : List Device) : List String := l.map Device.id

/-- Insertion order of first sighting: the order the scan callback gives to
distinct identities. -/
def firstSightings (ids : List String) : List String :=
  ids.foldl (fun acc i => if i ∈ acc then acc else acc ++ [i]) []

/-- The most recent discovery event carrying a given identity. -/
def lastEvent (i : String) (events : List Device) : Option Device :=
  (events.filter (fun d => d.id = i)).getLast?

/-- The entry stored for a given identity (first match in the list). -/
def lookupId (i : String) : List Device → Option Device
  | [] => none
  | e :: rest => if e.id = i then some e else lookupId i rest

/-- The device list produced by a sequence of discovery events starting
from an empty list (startScan clears the list, part_000 line 240). -/
def scanFold (events : List Device) : List Device :=
  events.foldl (fun l d => upsertDevice d l) []

/-! ### Concrete scenario used by the counterexamples and witnesses -/

/-- Peripheral A of the concrete scenario. -/
def devA : Device := { id := "AA:01", name := some "Sensor A", rssi := -60 }

/-- Peripheral B of the concrete scenario. -/
def devB : Device := { id := "AA:02", name := some "Sensor B", rssi := -70 }

/-- A notifiable characteristic whose monitor call succeeds. -/
def charN : CharEnv := { uuid := "2a37", isNotifiable := true, monitorOk := true }

/-- A service exposing the characteristic above. -/
def svcA : ServiceEnv := { uuid := "180d", chars := some [charN] }

/-- State after the adapter reports PoweredOn: status Disconnected. -/
def sReady : AppState := onStateChange RadioState.poweredOn initialState

/-- State after a successful explicit connect to A: Connected, disconnect
monitoring armed, one characteristic subscription. -/
def sConnectedA : AppState := (connectToDevice devA ConnectOutcome.success [svcA] sReady).1

/-- One received notification while connected to A. -/
def evHeart : MonitorEvent :=
  { serviceUUID := "180d", charUUID := "2a37", value := some "64",
    nowMs := 1, frac := 0, timestamp := "t0" }

/-- State holding one logged notification. -/
def sNotified : AppState := onMonitorValue evHeart sConnectedA

/-- State after a peripheral-initiated disconnect with auto-reconnect on:
status Reconnecting..., reconnect timer armed for A, log not cleared,
no current device handle. -/
def sReconnecting : AppState := onPeripheralDisconnect (some "Connection lost") sNotified

/-- State after a new explicit connect to B issued while the reconnect
timer for A is still armed. -/
def sSecondConnect : AppState := (connectToDevice devB ConnectOutcome.success [svcA] sReconnecting).1

/-- State after the stale reconnect timer for A fires on top of the new
session with B. -/
def sStaleFire : AppState := (reconnectTimerFire ConnectOutcome.success [svcA] sSecondConnect).1

/-- A state in which scanning is active. -/
def sScanning : AppState := startScan true sReady

/-- Scanning state in which one device has already been collected. -/
def sScanFound : AppState := onDeviceFound devB sScanning

/-- Second monitor event of the same millisecond as `evLate`, with the
larger random fraction, pushed first. -/
def evEarly : MonitorEvent :=
  { serviceUUID := "180d", charUUID := "2a37", value := some "aa",
    nowMs := 5, frac := 900, timestamp := "t1" }

/-- Monitor event pushed after `evEarly`, within the same millisecond but
with a smaller random fraction. -/
def evLate : MonitorEvent :=
  { serviceUUID := "180d", charUUID := "2a37", value := some "bb",
    nowMs := 5, frac := 100, timestamp := "t2" }

/-- Monitor event pushed after `evHeart` with a strictly later clock
millisecond. -/
def evNext : MonitorEvent :=
  { serviceUUID := "180d", charUUID := "2a37", value := some "65",
    nowMs := 2, frac := 500, timestamp := "t3" }

/-! ### Helper lemmas -/

/-- Identity column of a cons. -/
theorem deviceIds_cons (e : Device) (l : List Device) :
    deviceIds (e :: l) = e.id :: deviceIds l := rfl

/-- Upserting preserves the identity column when the id is present and
appends it otherwise. -/
theorem upsert_ids (d : Device) (l : List Device) :
    deviceIds (upsertDevice d l)
      = if d.id ∈ deviceIds l then deviceIds l else deviceIds l ++ [d.id] := by
  induction l with
  | nil => simp [upsertDevice, deviceIds]
  | cons e rest ih =>
    by_cases h : e.id = d.id
    · have hm : d.id ∈ deviceIds (e :: rest) := by
        rw [deviceIds_cons, ← h]
        exact List.mem_cons_self _ _
      rw [if_pos hm]
      simp only [upsertDevice, if_pos h]
      rw [deviceIds_cons, deviceIds_cons, h]
    · have h2 : ¬ d.id = e.id := fun hc => h hc.symm
      by_cases hm : d.id ∈ deviceIds rest
      · have hm2 : d.id ∈ deviceIds (e :: rest) := by
          rw [deviceIds_cons]
          exact List.mem_cons_of_mem _ hm
        rw [if_pos hm2]
        simp only [upsertDevice, if_neg h]
        rw [deviceIds_cons, ih, if_pos hm, deviceIds_cons]
      · have hm2 : d.id ∉ deviceIds (e :: rest) := by
          rw [deviceIds_cons]
          intro hx
          rcases List.mem_cons.mp hx with hx | hx
          · exact h2 hx
          · exact hm hx
        rw [if_neg hm2]
        simp only [upsertDevice, if_neg h]
        rw [deviceIds_cons, ih, if_neg hm, deviceIds_cons, List.cons_append]

/-- Lookup after an upsert: the upserted id maps to the new device, every
other id is untouched. -/
theorem upsert_lookup (d : Device) (l : List Device) (i : String) :
    lookupId i (upsertDevice d l) = if i = d.id then some d else lookupId i l := by
  induction l with
  | nil =>
    by_cases h : i = d.id
    · simp only [upsertDevice, lookupId, if_pos h]
      rw [if_pos h.symm]
    · simp only [upsertDevice, lookupId, if_neg h]
      rw [if_neg (fun hc => h hc.symm)]
  | cons e rest ih =>
    by_cases h : e.id = d.id
    · simp only [upsertDevice, if_pos h, lookupId]
      by_cases hi : i = d.id
      · rw [if_pos hi.symm, if_pos hi]
      · have hd : ¬ d.id = i := fun hc => hi hc.symm
        have he : ¬ e.id = i := fun hc => hi (h ▸ hc).symm
        rw [if_neg hd, if_neg hi, if_neg he]
    · simp only [upsertDevice, if_neg h, lookupId]
      by_cases he : e.id = i
      · have hi : ¬ i = d.id := fun hc => h (he.symm ▸ hc)
        rw [if_pos he, if_neg hi, if_pos he]
      · rw [if_neg he, ih]
        by_cases hi : i = d.id
        · rw [if_pos hi, if_pos hi]
        · rw [if_neg hi, if_neg hi, if_neg he]

/-- The most recent event for an identity after appending one more event. -/
theorem lastEvent_concat (i : String) (es : List Device) (d : Device) :
    lastEvent i (es ++ [d]) = if i = d.id then some d else lastEvent i es := by
  unfold lastEvent
  rw [List.filter_append]
  by_cases h : i = d.id
  · subst h
    rw [if_pos rfl]
    have hf : List.filter (fun e => decide (e.id = d.id)) [d] = [d] := by simp
    rw [hf, List.getLast?_concat]
  · have h2 : ¬ d.id = i := fun hc => h hc.symm
    have hf : List.filter (fun e => decide (e.id = i)) [d] = [] := by simp [h2]
    rw [if_neg h, hf, List.append_nil]

/-- Processing one more discovery event upserts it into the accumulated
list. -/
theorem scanFold_concat (es : List Device) (d : Device) :
    scanFold (es ++ [d]) = upsertDevice d (scanFold es) := by
  unfold scanFold
  rw [List.foldl_append]
  rfl

/-- First-sighting order after one more sighting. -/
theorem firstSightings_concat (ids : List String) (i : String) :
    firstSightings (ids ++ [i])
      = if i ∈ firstSightings ids then firstSightings ids
        else firstSightings ids ++ [i] := by
  unfold firstSightings
  rw [List.foldl_append]
  rfl

/-- Invariant of the scan fold: the identity column is the first-sighting
order, and every stored entry is the most recent event for its identity. -/
theorem scanFold_spec (es : List Device) :
    deviceIds (scanFold es) = firstSightings (es.map Device.id)
    ∧ ∀ i, lookupId i (scanFold es) = lastEvent i es := by
  induction es using List.reverseRecOn with
  | nil =>
    constructor
    · rfl
    · intro i; rfl
  | append_singleton es d ih =>
    obtain ⟨ih1, ih2⟩ := ih
    constructor
    · rw [scanFold_concat, upsert_ids, ih1, List.map_append]
      simp only [List.map_cons, List.map_nil]
      rw [firstSightings_concat]
    · intro i
      rw [scanFold_concat, upsert_lookup, lastEvent_concat]
      by_cases h : i = d.id
      · rw [if_pos h, if_pos h]
      · rw [if_neg h, if_neg h, ih2 i]

/-- First sightings are duplicate-free and cover exactly the sighted
identities. -/
theorem firstSightings_nodup_mem (ids : List String) :
    (firstSightings ids).Nodup ∧ ∀ x, x ∈ firstSightings ids ↔ x ∈ ids := by
  induction ids using List.reverseRecOn with
  | nil => simp [firstSightings]
  | append_singleton ids i ih =>
    obtain ⟨ihn, ihm⟩ := ih
    rw [firstSightings_concat]
    by_cases h : i ∈ firstSightings ids
    · simp only [if_pos h]
      refine ⟨ihn, fun x => ?_⟩
      simp only [List.mem_append, List.mem_singleton, ihm x]
      constructor
      · exact Or.inl
      · rintro (hx | rfl)
        · exact hx
        · exact (ihm x).mp h
    · simp only [if_neg h]
      constructor
      · rw [List.nodup_append]
        refine ⟨ihn, List.nodup_singleton i, ?_⟩
        intro a ha hb
        rw [List.mem_singleton] at hb
        exact h (hb ▸ ha)
      · intro x
        simp only [List.mem_append, List.mem_singleton, ihm x]

/-- The number of first sightings is the number of distinct identities. -/
theorem firstSightings_length (ids : List String) :
    (firstSightings ids).length = ids.dedup.length := by
  obtain ⟨hn, hm⟩ := firstSightings_nodup_mem ids
  have h1 : (firstSightings ids).toFinset = ids.dedup.toFinset := by
    ext x
    simp only [List.mem_toFinset, hm x, List.mem_dedup]
  calc (firstSightings ids).length
      = (firstSightings ids).toFinset.card := (List.toFinset_card_of_nodup hn).symm
    _ = ids.dedup.toFinset.card := by rw [h1]
    _ = ids.dedup.length := List.toFinset_card_of_nodup ids.nodup_dedup

/-- The devices field of the state after a run of scan callbacks is the
pure fold of upserts. -/
theorem foldDevices (events : List Device) : ∀ s : AppState,
    (events.foldl (fun st d => onDeviceFound d st) s).devices
      = events.foldl (fun l d => upsertDevice d l) s.devices := by
  induction events with
  | nil => intro s; rfl
  | cons d rest ih =>
    intro s
    simp only [List.foldl_cons]
    rw [ih]
    rfl

/-- Pushing a run of events onto an empty log keeps the 100 most recent,
most-recent-first. -/
theorem pushAll_nil (es : List NotificationData) :
    pushAll es [] = es.reverse.take 100 := by
  induction es using List.reverseRecOn with
  | nil => rfl
  | append_singleton es e ih =>
    unfold pushAll
    rw [List.foldl_append]
    show pushNotification e (pushAll es []) = _
    rw [ih, List.reverse_append]
    simp only [List.reverse_singleton, List.singleton_append]
    rw [List.take_succ_cons]
    unfold pushNotification
    rw [List.take_take]
    norm_num

/-- Inner characteristic loop of subscribeToCharacteristics, characterised:
attempts every notifiable characteristic, collects a handle and a count
increment exactly for the successful ones. -/
theorem attachChar_fold (svUuid : String) (cs : List CharEnv) : ∀ acc : AttachAcc,
    cs.foldl (attachChar svUuid) acc
      = { attempted := acc.attempted
            ++ (cs.filter (fun c => c.isNotifiable)).map (charKey svUuid)
          handles := acc.handles
            ++ (cs.filter (fun c => c.isNotifiable && c.monitorOk)).map (charKey svUuid)
          count := acc.count
            + ((cs.filter (fun c => c.isNotifiable && c.monitorOk)).map (charKey svUuid)).length } := by
  induction cs with
  | nil => intro acc; simp
  | cons c rest ih =>
    intro acc
    simp only [List.foldl_cons]
    rw [ih]
    by_cases hn : c.isNotifiable
    · by_cases hm : c.monitorOk
      · simp [attachChar, hn, hm, List.filter_cons, List.append_assoc]
        omega
      · simp [attachChar, hn, hm, List.filter_cons, List.append_assoc]
    · simp [attachChar, hn, List.filter_cons]

/-- Both loops of subscribeToCharacteristics, characterised over all
services. -/
theorem attachAll_fold (svcs : List ServiceEnv) : ∀ acc : AttachAcc,
    svcs.foldl attachService acc
      = { attempted := acc.attempted ++ (svcs.map svcNotifiable).flatten
          handles := acc.handles ++ (svcs.map svcSuccessful).flatten
          count := acc.count + ((svcs.map svcSuccessful).flatten).length } := by
  induction svcs with
  | nil => intro acc; simp
  | cons sv rest ih =>
    intro acc
    simp only [List.foldl_cons]
    rw [ih]
    match hsv : sv.chars with
    | none =>
        simp [attachService, hsv, svcNotifiable, svcSuccessful]
    | some cs =>
        have h1 : svcNotifiable sv
            = (cs.filter (fun c => c.isNotifiable)).map (charKey sv.uuid) := by
          unfold svcNotifiable
          rw [hsv]
        have h2 : svcSuccessful sv
            = (cs.filter (fun c => c.isNotifiable && c.monitorOk)).map (charKey sv.uuid) := by
          unfold svcSuccessful
          rw [hsv]
        simp only [attachService, hsv]
        rw [attachChar_fold]
        simp [List.append_assoc, h1, h2]
        omega

/-- A message classified as OperationCancelled is rewritten to the fixed
cancellation text, which contains the substring cancelled. -/
theorem cancelled_message (msg : String)
    (h : classifyError msg = BleError.operationCancelled) :
    strContains (classifyMessage msg) "cancelled" = true := by
  unfold classifyError at h
  unfold classifyMessage
  split_ifs at h ⊢ with h1 h2 h3 h4
  all_goals first
    | exact absurd h (by decide)
    | decide

/-- Projections of the failure branch of connectToDevice: the status trace,
the reconnect timer and the final status, as functions of the auto-reconnect
flag and the cancelled-substring test. -/
theorem connect_failure_proj (d : Device) (msg : String) (svcs : List ServiceEnv)
    (s : AppState) :
    ((connectToDevice d (ConnectOutcome.failure msg) svcs s).2
        = if s.autoReconnect && !(strContains (classifyMessage msg) "cancelled")
          then [ConnectionStatus.connecting, ConnectionStatus.connectionFailed,
                ConnectionStatus.reconnecting]
          else [ConnectionStatus.connecting, ConnectionStatus.connectionFailed])
    ∧ ((connectToDevice d (ConnectOutcome.failure msg) svcs s).1.reconnectTimer
        = if s.autoReconnect && !(strContains (classifyMessage msg) "cancelled")
          then some d else s.reconnectTimer)
    ∧ ((connectToDevice d (ConnectOutcome.failure msg) svcs s).1.connectionStatus
        = if s.autoReconnect && !(strContains (classifyMessage msg) "cancelled")
          then ConnectionStatus.reconnecting else ConnectionStatus.connectionFailed) := by
  cases hsc : s.isScanning <;> cases har : s.autoReconnect <;>
    cases hcc : strContains (classifyMessage msg) "cancelled" <;>
    simp [connectToDevice, hsc, har, hcc, stopScan, scheduleReconnect]

/-! ### Claims -/

/-- C1: the claim says a new explicit connect cancels a pending reconnect
timer and that a stale timer firing afterwards does not alter the new
session.  The code does neither: connectToDevice never clears
reconnectTimeoutRef, so after the reconnect timer was armed for peripheral
A and a new explicit connect to B succeeded, the timer is still armed for
A; when it fires it runs connectToDevice on A and overwrites the new
session, leaving the controller connected to A instead of B. -/
theorem stale_reconnect_timer_survives_new_connect :
    sSecondConnect.connectedDevice = some devB
    ∧ sSecondConnect.connectionStatus = ConnectionStatus.connected
    ∧ sSecondConnect.reconnectTimer = some devA
    ∧ sStaleFire.connectedDevice = some devA
    ∧ sStaleFire.connectedDevice ≠ sSecondConnect.connectedDevice := by decide

/-- C2: the claim says disconnect from any non-Disconnected state cancels
the armed reconnect timer, releases subscriptions, clears the log and moves
to Disconnected.  In the Reconnecting state the current device handle is
null (the failed attempt and the disconnect listener both reset it), so the
guard at part_000 line 522 returns immediately: disconnect is a no-op
there, leaving the reconnect timer armed, the log non-empty and the status
Reconnecting. -/
theorem disconnect_noop_while_reconnecting :
    sReconnecting.connectionStatus = ConnectionStatus.reconnecting
    ∧ sReconnecting.reconnectTimer = some devA
    ∧ sReconnecting.notifications ≠ []
    ∧ disconnect true sReconnecting = sReconnecting := by decide

/-- C3, counterexample: two notifications received within the same clock
millisecond (5) with random fractions 0.900 and then 0.100 are pushed in
that order, and the event pushed later carries the smaller sequence id
(5100 against 5900), refuting strict monotonicity of sequence ids. -/
theorem notification_seq_id_cex :
    (onMonitorValue evLate (onMonitorValue evEarly initialState)).notifications.map
        NotificationData.id = [5100, 5900]
    ∧ ¬ mkNotificationId evEarly.nowMs evEarly.frac
        < mkNotificationId evLate.nowMs evLate.frac := by decide

/-- C3, amended: sequence ids issued by two successive pushes are strictly
increasing whenever the millisecond clock strictly advances between the
pushes; within a single millisecond the ordering depends on the random
fraction and can decrease. -/
theorem seq_id_monotone_when_clock_advances (s : AppState) (e1 e2 : MonitorEvent)
    (v1 v2 : String) (h1 : e1.value = some v1) (h2 : e2.value = some v2)
    (hlt : e1.nowMs < e2.nowMs) :
    ((onMonitorValue e2 (onMonitorValue e1 s)).notifications.map
        NotificationData.id).take 2
      = [mkNotificationId e2.nowMs e2.frac, mkNotificationId e1.nowMs e1.frac]
    ∧ mkNotificationId e1.nowMs e1.frac < mkNotificationId e2.nowMs e2.frac := by
  constructor
  · simp [onMonitorValue, h1, h2, pushNotification]
  · unfold mkNotificationId
    have m1 : e1.frac % 1000 < 1000 := Nat.mod_lt _ (by norm_num)
    omega

/-- C3, witness: evHeart (millisecond 1) followed by evNext (millisecond 2)
instantiates the amended claim. -/
theorem seq_id_monotone_witness :
    ((onMonitorValue evNext (onMonitorValue evHeart initialState)).notifications.map
        NotificationData.id).take 2
      = [mkNotificationId evNext.nowMs evNext.frac,
         mkNotificationId evHeart.nowMs evHeart.frac]
    ∧ mkNotificationId evHeart.nowMs evHeart.frac
        < mkNotificationId evNext.nowMs evNext.frac :=
  seq_id_monotone_when_clock_advances initialState evHeart evNext "64" "65" rfl rfl
    (by decide)

set_option maxRecDepth 4000 in
/-- C4: push prepends and keeps at most 100 entries (evicting the tail
when the size would exceed 100); a run of pushes from the empty log keeps
exactly the 100 most recent events in most-recent-first order, and pushing
the 105 events of seqEvents leaves exactly 100 entries whose sequence ids
are the 100 highest issued, 105 down to 6. -/
theorem notification_log_capacity :
    (∀ (e : NotificationData) (log : List NotificationData),
        pushNotification e log = e :: log.take 99
        ∧ (pushNotification e log).length ≤ 100)
    ∧ (∀ es : List NotificationData, pushAll es [] = es.reverse.take 100)
    ∧ (pushAll (seqEvents 105) []).length = 100
    ∧ (pushAll (seqEvents 105) []).map NotificationData.id
        = (List.range 100).map (fun i => 105 - i) := by
  refine ⟨fun e log => ⟨rfl, ?_⟩, pushAll_nil, by decide, by decide⟩
  unfold pushNotification
  simp only [List.length_cons, List.length_take]
  omega

/-- C5: for every sequence of discovery events the device collection keyed
by identity is duplicate-free, covers exactly the sighted identities (hence
has exactly as many entries as there are distinct identities), stores for
each identity the most recent event, and lists identities in insertion
order of first sighting; the fold of the scan callback starting from
startScan produces exactly this collection. -/
theorem scan_dedup (events : List Device) :
    deviceIds (scanFold events) = firstSightings (events.map Device.id)
    ∧ (deviceIds (scanFold events)).Nodup
    ∧ (∀ i, i ∈ deviceIds (scanFold events) ↔ i ∈ events.map Device.id)
    ∧ (scanFold events).length = (events.map Device.id).dedup.length
    ∧ (∀ i, lookupId i (scanFold events) = lastEvent i events)
    ∧ ∀ s : AppState,
        (events.foldl (fun st d => onDeviceFound d st) (startScan true s)).devices
          = scanFold events := by
  obtain ⟨h1, h2⟩ := scanFold_spec events
  obtain ⟨hn, hm⟩ := firstSightings_nodup_mem (events.map Device.id)
  refine ⟨h1, ?_, ?_, ?_, h2, ?_⟩
  · rw [h1]
    exact hn
  · intro i
    rw [h1]
    exact hm i
  · have hlen : (scanFold events).length = (deviceIds (scanFold events)).length :=
      (List.length_map _ _).symm
    rw [hlen, h1, firstSightings_length]
  · intro s
    rw [foldDevices]
    rfl

/-- C6, counterexample: a failing connect whose raw error message is the
single word cancelled is classified as UnknownAdapterError, not as
OperationCancelled, yet with auto-reconnect enabled no reconnect is
scheduled (the substring test on the message suppresses it), refuting the
claim that every non-cancellation failure under auto-reconnect schedules a
reconnect. -/
theorem reconnect_policy_cex :
    classifyError "cancelled" = BleError.unknownAdapterError
    ∧ sReady.autoReconnect = true
    ∧ sReady.reconnectTimer = none
    ∧ (connectToDevice devA (ConnectOutcome.failure "cancelled") [] sReady).1.reconnectTimer
        = none
    ∧ (connectToDevice devA (ConnectOutcome.failure "cancelled") [] sReady).1.connectionStatus
        = ConnectionStatus.connectionFailed := by decide

/-- C6, amended: every failing connect attempt passes through the Failed
status; a failure classified as OperationCancelled never schedules a
reconnect (regardless of the auto-reconnect flag, whose value the else
branch preserves); with auto-reconnect off the timer is untouched; and a
reconnect is scheduled exactly when auto-reconnect is on and the rewritten
error message does not contain the substring cancelled — so a
non-cancellation failure whose message happens to contain that substring
also suppresses the reconnect. -/
theorem reconnect_policy (d : Device) (msg : String) (svcs : List ServiceEnv)
    (s : AppState) :
    ConnectionStatus.connectionFailed ∈ (connectToDevice d (ConnectOutcome.failure msg) svcs s).2
    ∧ (classifyError msg = BleError.operationCancelled →
        (connectToDevice d (ConnectOutcome.failure msg) svcs s).1.reconnectTimer = s.reconnectTimer
        ∧ (connectToDevice d (ConnectOutcome.failure msg) svcs s).1.connectionStatus
            = ConnectionStatus.connectionFailed)
    ∧ (s.autoReconnect = false →
        (connectToDevice d (ConnectOutcome.failure msg) svcs s).1.reconnectTimer = s.reconnectTimer
        ∧ (connectToDevice d (ConnectOutcome.failure msg) svcs s).1.connectionStatus
            = ConnectionStatus.connectionFailed)
    ∧ (s.autoReconnect = true → strContains (classifyMessage msg) "cancelled" = false →
        (connectToDevice d (ConnectOutcome.failure msg) svcs s).1.reconnectTimer = some d
        ∧ (connectToDevice d (ConnectOutcome.failure msg) svcs s).1.connectionStatus
            = ConnectionStatus.reconnecting) := by
  obtain ⟨ht, hr, hs2⟩ := connect_failure_proj d msg svcs s
  refine ⟨?_, fun hcl => ?_, fun hfa => ?_, fun hta htc => ?_⟩
  · rw [ht]
    split <;> simp
  · have hc := cancelled_message msg hcl
    rw [hr, hs2]
    simp [hc]
  · rw [hr, hs2]
    simp [hfa]
  · rw [hr, hs2]
    simp [hta, htc]

/-- C6, witness: a connect failing with the adapter cancellation message
leaves the timer untouched in status Failed, while a failure with an
unclassified message under auto-reconnect arms the timer and moves to
Reconnecting. -/
theorem reconnect_policy_witness :
    ((connectToDevice devA (ConnectOutcome.failure "Operation was cancelled") [] sReady).1.reconnectTimer
        = sReady.reconnectTimer
      ∧ (connectToDevice devA (ConnectOutcome.failure "Operation was cancelled") [] sReady).1.connectionStatus
        = ConnectionStatus.connectionFailed)
    ∧ ((connectToDevice devA (ConnectOutcome.failure "unexpected disruption") [] sReady).1.reconnectTimer
        = some devA
      ∧ (connectToDevice devA (ConnectOutcome.failure "unexpected disruption") [] sReady).1.connectionStatus
        = ConnectionStatus.reconnecting) :=
  ⟨(reconnect_policy devA "Operation was cancelled" [] sReady).2.1 (by decide),
   (reconnect_policy devA "unexpected disruption" [] sReady).2.2.2 rfl (by decide)⟩

/-- C7: the attach loop attempts every notifiable characteristic of every
enumerable service — a failing subscription never aborts the rest — and the
reported count equals exactly the number of successfully established
subscriptions, which are the handles appended to the subscription list. -/
theorem attach_partial_failure (svcs : List ServiceEnv) :
    (attachAll svcs).attempted = (svcs.map svcNotifiable).flatten
    ∧ (attachAll svcs).handles = (svcs.map svcSuccessful).flatten
    ∧ (attachAll svcs).count = ((svcs.map svcSuccessful).flatten).length
    ∧ ∀ s : AppState, (subscribeToCharacteristics svcs s).subscriptions
        = s.subscriptions ++ (svcs.map svcSuccessful).flatten := by
  have h := attachAll_fold svcs { attempted := [], handles := [], count := 0 }
  unfold attachAll
  rw [h]
  refine ⟨by simp, by simp, by simp, fun s => ?_⟩
  unfold subscribeToCharacteristics attachAll
  rw [h]
  simp

/-- C8: the claim says a PoweredOff transition while scanning stops the
scan, cancels the auto-stop timer and sets the Bluetooth-unavailable status
while preserving the device list.  The state-change listener is registered
once at mount, so its closure holds the first render's isScanning = false
(part_000 lines 64-91): the guard of line 114 never sees the live scanning
flag and stopScan is never called from a radio transition.  Evaluating the
embedding at a scanning state with the timer armed and one device
collected: the status does become Bluetooth Off and the device list and
radio state are recorded, but the scan keeps running and the 20-second
auto-stop timer stays armed, contradicting the claim. -/
theorem radio_off_does_not_stop_scan :
    sScanFound.isScanning = true
    ∧ sScanFound.scanTimerArmed = true
    ∧ (onStateChange RadioState.poweredOff sScanFound).isScanning = true
    ∧ (onStateChange RadioState.poweredOff sScanFound).scanTimerArmed = true
    ∧ (onStateChange RadioState.poweredOff sScanFound).connectionStatus
        = ConnectionStatus.bluetoothOff
    ∧ (onStateChange RadioState.poweredOff sScanFound).devices = sScanFound.devices
    ∧ (onStateChange RadioState.poweredOff sScanFound).bluetoothState
        = RadioState.poweredOff := by decide

/-- C9: after any start, one stop leaves scanning off with the auto-stop
timer cleared, so a late timer firing is a no-op; a second stop is a no-op,
and stop applied to a state that is already not scanning with no armed
timer leaves the state unchanged. -/
theorem stop_scan_idempotent :
    (∀ (c : Bool) (s : AppState),
        (stopScan (startScan c s)).isScanning = false
        ∧ (stopScan (startScan c s)).scanTimerArmed = false
        ∧ scanTimerFire (stopScan (startScan c s)) = stopScan (startScan c s))
    ∧ (∀ s : AppState, stopScan (stopScan s) = stopScan s)
    ∧ ∀ s : AppState, s.isScanning = false → s.scanTimerArmed = false → stopScan s = s := by
  refine ⟨fun c s => ⟨rfl, rfl, rfl⟩, fun s => rfl, fun s h1 h2 => ?_⟩
  unfold stopScan
  cases s
  simp_all

/-- C9, witness: the initial state is not scanning and stop leaves it
unchanged. -/
theorem stop_scan_idempotent_witness : stopScan initialState = initialState :=
  stop_scan_idempotent.2.2 initialState rfl rfl

/-- C10: a connect that finds the peripheral already connected
short-circuits to Connected and establishes the characteristic
subscriptions, but leaves the disconnect monitor unarmed; a later
peripheral-initiated disconnect on such a session therefore changes nothing
— no subscription release, no transition to Disconnected, no reconnect
scheduling. -/
theorem already_connected_skips_monitoring (s : AppState) (d : Device)
    (svcs : List ServiceEnv) (m : Option String)
    (h : s.disconnectMonitor = none) :
    (connectToDevice d ConnectOutcome.alreadyConnected svcs s).1.disconnectMonitor = none
    ∧ (connectToDevice d ConnectOutcome.alreadyConnected svcs s).1.isConnected = true
    ∧ (connectToDevice d ConnectOutcome.alreadyConnected svcs s).1.connectedDevice = some d
    ∧ (connectToDevice d ConnectOutcome.alreadyConnected svcs s).1.subscriptions
        = s.subscriptions ++ (attachAll svcs).handles
    ∧ onPeripheralDisconnect m (connectToDevice d ConnectOutcome.alreadyConnected svcs s).1
        = (connectToDevice d ConnectOutcome.alreadyConnected svcs s).1 := by
  cases hsc : s.isScanning <;>
    refine ⟨?_, ?_, ?_, ?_, ?_⟩ <;>
    simp_all [connectToDevice, subscribeToCharacteristics, stopScan, onPeripheralDisconnect]

/-- C10, witness: a short-circuit connect to A from the ready state, then a
peripheral-initiated disconnect, instantiates the claim. -/
theorem already_connected_skips_monitoring_witness :
    (connectToDevice devA ConnectOutcome.alreadyConnected [svcA] sReady).1.disconnectMonitor = none
    ∧ (connectToDevice devA ConnectOutcome.alreadyConnected [svcA] sReady).1.isConnected = true
    ∧ (connectToDevice devA ConnectOutcome.alreadyConnected [svcA] sReady).1.connectedDevice = some devA
    ∧ (connectToDevice devA ConnectOutcome.alreadyConnected [svcA] sReady).1.subscriptions
        = sReady.subscriptions ++ (attachAll [svcA]).handles
    ∧ onPeripheralDisconnect (some "link lost")
          (connectToDevice devA ConnectOutcome.alreadyConnected [svcA] sReady).1
        = (connectToDevice devA ConnectOutcome.alreadyConnected [svcA] sReady).1 :=
  already_connected_skips_monitoring sReady devA [svcA] (some "link lost") rfl

end BLEDeviceManager
